import Mathlib

/-!
Verification development for the Apsara universal-widget backend.

The definitions below are a shallow embedding of the two backend modules
`src/backend/tools.js` (tool registry, executor, declaration generator and the
individual tool implementations) and `src/backend/server.js` (the per-client
modality state machine and the client-frame relay).  The repository files
contain several concatenated historical revisions of both modules; following
the design notes, the most complete revision is embedded (for `tools.js` the
one spanning the registry at line 355 through `executeTool` at line 1714, for
`server.js` the connection handler at line 420).

Modelling conventions:
- JavaScript strings stay `String`; optional / possibly-`undefined` values
  become `Option`; an uncaught JavaScript exception becomes `Except.error`
  with the message carried by the error.
- Effects on the operating system (shell commands, the filesystem, SMTP and
  the clock) are supplied by an `Env` record of oracles; the tool functions
  thread an explicit `ToolsState` in place of the module-level mutable
  variables of `tools.js`.
- Observable side effects that claims talk about (which implementation the
  executor invoked, which emails were handed to the transporter, which paths
  were unlinked) are collected in an `Effects` record.
- Debug logging (`debugLog`, `console.log`) has no observable effect and is
  modelled with the per-feature debug flags in their default off position.
-/

/-! ## JavaScript string primitives

`jsIncludes s pat` models `s.includes(pat)` on JavaScript strings, via a
character-list matcher. -/

/-- Does the pattern occur at the head of the text?  Helper for `jsIncludes`. -/
def leadMatch : List Char → List Char → Bool
  | [], _ => true
  | _ :: _, [] => false
  | a :: as, b :: bs => a == b && leadMatch as bs

/-- Does the pattern occur anywhere in the text?  Helper for `jsIncludes`. -/
def subMatch (pat : List Char) : List Char → Bool
  | [] => leadMatch pat []
  | b :: bs => leadMatch pat (b :: bs) || subMatch pat bs

/-- Model of the JavaScript `s.includes(pat)` substring test. -/
def jsIncludes (s pat : String) : Bool :=
  subMatch pat.data s.data

/-- Model of the JavaScript `s.toLowerCase()` conversion, character by
character (structural, so that concrete instances evaluate). -/
def jsToLower (s : String) : String := ⟨s.data.map Char.toLower⟩

/-- Model of the JavaScript `s.trim()` whitespace strip (structural, so that
concrete instances evaluate). -/
def jsTrim (s : String) : String :=
  ⟨((s.data.dropWhile Char.isWhitespace).reverse.dropWhile
      Char.isWhitespace).reverse⟩

/-! ## Tool registry (`tools.js` lines 340-494)

`ENABLED_TOOLS` is a JavaScript object literal; it is embedded as an
association list that keeps the literal key order.  `TOOL_METADATA.async`
seeds `toolAsyncSettings` exactly as the module initialiser does. -/

/-- The 18 custom tool identifiers, in the order of the `ENABLED_TOOLS`
literal (which is also the order of the `if` chain in
`getToolDeclarations`). -/
def customToolIds : List String :=
  ["send_email_to_shubharthak", "take_screenshot", "copy_to_clipboard",
   "get_clipboard_text", "paste_from_clipboard", "store_memory",
   "retrieve_memories", "clear_memories", "read_file", "browse_files",
   "create_file", "edit_file", "move_file", "rename_file", "delete_file",
   "open_url", "fill_form", "click_element"]

/-- All registry keys: `googleSearch` followed by the custom tools. -/
def allToolIds : List String := "googleSearch" :: customToolIds

/-- The `ENABLED_TOOLS` literal: everything except `googleSearch` is disabled
by default (tools.js lines 355-377). -/
def defaultEnabledFlags : List (String × Bool) :=
  ("googleSearch", true) :: customToolIds.map (fun id => (id, false))

/-- The `async` field of each `TOOL_METADATA` entry (tools.js lines 380-400),
which seeds `toolAsyncSettings` at module load (lines 404-408). -/
def defaultAsyncFlags : List (String × Bool) :=
  [("googleSearch", false), ("send_email_to_shubharthak", true),
   ("take_screenshot", true), ("copy_to_clipboard", true),
   ("get_clipboard_text", false), ("paste_from_clipboard", true),
   ("store_memory", true), ("retrieve_memories", false),
   ("clear_memories", true), ("read_file", false), ("browse_files", false),
   ("create_file", true), ("edit_file", true), ("move_file", true),
   ("rename_file", true), ("delete_file", true), ("open_url", true),
   ("fill_form", true), ("click_element", true)]

/-- One stored memory entry, as built by `storeMemory` (tools.js lines
804-828).  `content` is `Option` because the tool executor passes
`args.content` through unchecked, so `undefined` can be stored. -/
structure Memory where
  id : Nat
  content : Option String
  category : String
  timestamp : String
  date : String
deriving Repr, DecidableEq

/-- The single-slot screenshot cache entry (`lastScreenshotData`,
tools.js line 629). -/
structure ScreenshotData where
  image : String
  filename : String
  mimeType : String
deriving Repr, DecidableEq

/-- The module-level mutable state of `tools.js`: the registry maps
(`ENABLED_TOOLS`, `toolOrder`, `toolAsyncSettings`), the memory store and the
screenshot cache. -/
structure ToolsState where
  enabledTools : List (String × Bool)
  toolOrder : List String
  toolAsyncSettings : List (String × Bool)
  memoryStore : List Memory
  lastScreenshotData : Option ScreenshotData
deriving Repr, DecidableEq

/-- The state at module load with no pre-existing memory file:
`toolOrder = Object.keys(ENABLED_TOOLS)` and async settings seeded from the
metadata table. -/
def initialToolsState : ToolsState where
  enabledTools := defaultEnabledFlags
  toolOrder := defaultEnabledFlags.map Prod.fst
  toolAsyncSettings := defaultAsyncFlags
  memoryStore := []
  lastScreenshotData := none

/-- Truthiness of `m[key]` for a JavaScript object of booleans: a missing key
reads as `undefined`, which is falsy. -/
def lookupFlag (m : List (String × Bool)) (k : String) : Bool :=
  (List.lookup k m).getD false

/-- The object spread `{...old, ...upd}`: existing keys keep their position
and take the updated value when present; keys only in `upd` are appended. -/
def mergeFlags (old upd : List (String × Bool)) : List (String × Bool) :=
  old.map (fun p => (p.1, ((List.lookup p.1 upd).getD p.2)))
    ++ upd.filter (fun p => (List.lookup p.1 old).isNone)

/-- First key of `keys` that is not present in the registry: the key on which
the validation loops of the three setters throw. -/
def firstUnknownKey (st : ToolsState) (keys : List String) : Option String :=
  keys.find? (fun k => (List.lookup k st.enabledTools).isNone)

/-- `setEnabledTools` (tools.js lines 481-494): validate every supplied key
against `ENABLED_TOOLS`, throwing `Unknown tool: key` on the first unknown
one, and only then merge the new flags in. -/
def setEnabledTools (newConfig : List (String × Bool)) (st : ToolsState) :
    Except String ToolsState :=
  match firstUnknownKey st (newConfig.map Prod.fst) with
  | some k => .error ("Unknown tool: " ++ k)
  | none => .ok { st with enabledTools := mergeFlags st.enabledTools newConfig }

/-- `setToolOrder` (tools.js lines 443-455): validate every entry of the new
order, then replace `toolOrder` wholesale. -/
def setToolOrder (newOrder : List String) (st : ToolsState) :
    Except String ToolsState :=
  match firstUnknownKey st newOrder with
  | some k => .error ("Unknown tool: " ++ k)
  | none => .ok { st with toolOrder := newOrder }

/-- `setToolAsyncSettings` (tools.js lines 462-474): validate every supplied
key, then merge into `toolAsyncSettings`. -/
def setToolAsyncSettings (asyncSettings : List (String × Bool))
    (st : ToolsState) : Except String ToolsState :=
  match firstUnknownKey st (asyncSettings.map Prod.fst) with
  | some k => .error ("Unknown tool: " ++ k)
  | none =>
      .ok { st with toolAsyncSettings := mergeFlags st.toolAsyncSettings asyncSettings }

/-! ## Declaration generator (`tools.js` lines 1441-1706) -/

/-- A function declaration handed to the upstream API.  The JSON parameter
schema attached to each declaration in the source is a per-tool constant that
no claim inspects, so only the name and the `behavior` marker added by
`addBehavior` are carried. -/
structure FunctionDecl where
  name : String
  behavior : Option String := none
deriving Repr, DecidableEq

/-- One element of the list returned by `getToolDeclarations`: either the
`{ googleSearch: {} }` marker object or the single
`{ functionDeclarations: [...] }` object grouping every enabled custom
tool. -/
inductive Declaration where
  | googleSearch
  | functionDeclarations (fds : List FunctionDecl)
deriving Repr, DecidableEq

/-- `addBehavior` (tools.js lines 1441-1446): mark the declaration
`NON_BLOCKING` when the async setting for the tool is truthy. -/
def addBehavior (d : FunctionDecl) (toolId : String) (st : ToolsState) :
    FunctionDecl :=
  if lookupFlag st.toolAsyncSettings toolId then
    { d with behavior := some "NON_BLOCKING" }
  else d

/-- `getToolDeclarations` (tools.js lines 1452-1706).  The source pushes
`{ googleSearch: {} }` when that flag is enabled and then runs one `if` per
custom tool, in the `customToolIds` order, pushing a declaration named after
the tool; the non-empty batch of custom declarations is appended as a single
`{ functionDeclarations }` element. -/
def getToolDeclarations (st : ToolsState) : List Declaration :=
  let declarations :=
    if lookupFlag st.enabledTools "googleSearch" then [Declaration.googleSearch]
    else []
  let functionDecls :=
    (customToolIds.filter (fun id => lookupFlag st.enabledTools id)).map
      (fun id => addBehavior { name := id } id st)
  if functionDecls.length > 0 then
    declarations ++ [Declaration.functionDeclarations functionDecls]
  else declarations

/-- Number of tools declared by one element of the `getToolDeclarations`
output. -/
def declCount : Declaration → Nat
  | .googleSearch => 1
  | .functionDeclarations fds => fds.length

/-- Total number of tools declared to the upstream API: the `googleSearch`
marker plus every nested function declaration. -/
def declaredToolCount (st : ToolsState) : Nat :=
  ((getToolDeclarations st).map declCount).sum

/-- Number of registry entries whose enabled flag is `true`. -/
def enabledCount (st : ToolsState) : Nat :=
  (st.enabledTools.filter (fun p => p.2)).length

/-! ## Execution environment and observable effects -/

/-- Oracles for everything outside the Node process: process configuration,
SMTP, the shell, the filesystem and the clock.  `sendMail` is the outcome the
nodemailer transporter produces for a send (the message id, or the thrown
error message); `execShell` maps a command line to its stdout or to the
thrown error message. -/
structure Env where
  emailEnabled : Bool
  sendMail : Except String String
  platform : String
  execShell : String → Except String String
  fileExists : String → Bool
  isFile : String → Bool
  isDir : String → Bool
  fileSize : String → Nat
  readFileB64 : String → String
  readFileUtf8 : String → String
  readDir : String → List String
  writeResult : String → Except String Unit
  renameResult : String → Except String Unit
  unlinkResult : String → Except String Unit
  resolvePath : String → String
  dirnameOf : String → String
  homedir : String
  nowMs : Nat
  nowIso : String
  nowLocale : String

/-- An email attachment as placed into `mailOptions.attachments`. -/
structure EmailAttachment where
  filename : String
  content : String
  contentType : Option String
deriving Repr, DecidableEq

/-- Observable side effects of a tool call: which implementation functions the
executor dispatched to, which `(recipient, attachment)` pairs were handed to
the mail transporter, and which paths `fs.unlinkSync` was called on. -/
structure Effects where
  invoked : List String := []
  emailsSent : List (String × Option EmailAttachment) := []
  unlinked : List String := []
deriving Repr, DecidableEq

/-- The view of a memory entry returned by `retrieveMemories`. -/
structure MemoryView where
  content : Option String
  category : String
  date : String
deriving Repr, DecidableEq

/-- The result object of a tool call.  JavaScript result objects are
heterogeneous; every field any embedded tool puts on its result is an
optional field here, absent fields reading as `undefined`. -/
structure ToolResult where
  success : Bool
  error : Option String := none
  message : Option String := none
  messageId : Option String := none
  sentTo : Option String := none
  image : Option String := none
  mimeType : Option String := none
  filename : Option String := none
  size : Option Nat := none
  count : Option Nat := none
  memories : List MemoryView := []
  memoryId : Option Nat := none
  totalMemories : Option Nat := none
  remainingMemories : Option Nat := none
  deletedFile : Option String := none
  deletedPath : Option String := none
  text : Option String := none
  url : Option String := none
  content : Option String := none
deriving Repr, DecidableEq

/-- Truthiness of an optional JavaScript string: `undefined`, `null` and the
empty string are falsy. -/
def strTruthy : Option String → Bool
  | none => false
  | some s => s ≠ ""

/-- POSIX `path.isAbsolute`. -/
def jsIsAbsolute (p : String) : Bool := p.startsWith "/"

/-- `path.isAbsolute(p) ? p : path.resolve(p)`, the prologue of every file
tool. -/
def resolveAbs (env : Env) (p : String) : String :=
  if jsIsAbsolute p then p else env.resolvePath p

/-- `path.basename`, approximated as the last `/`-separated component. -/
def jsBasename (p : String) : String :=
  (p.splitOn "/").getLastD p

/-! ## Email and screenshot tools (`tools.js` lines 535-705) -/

/-- `sendEmailToShubharthak` (tools.js lines 565-626).  The JavaScript
signature is
`(message, recipientEmail = default, senderInfo = unused, fileBase64 = null,
filename = attachment.dat, mimeType = null)`;
`undefined` arguments become `none` here and the default parameters are
resolved at entry.  `initEmailTransporter` throws when `EMAIL_ENABLED` is not
`true`; that throw, and a throw from `transporter.sendMail`, are caught by the
catch block and turned into `{success:false, error}` without touching the
screenshot cache.  On a successful send the cache is cleared. -/
def sendEmailToShubharthak (message recipientEmail senderInfo fileBase64
    filename mimeType : Option String) (env : Env) (st : ToolsState) :
    ToolResult × ToolsState × Effects :=
  let _ := message
  let _ := senderInfo
  let recipient := recipientEmail.getD "shubharthaksangharsha@gmail.com"
  let filename0 := filename.getD "attachment.dat"
  if !env.emailEnabled then
    ({ success := false,
       error := some "Email tool is disabled by configuration (EMAIL_ENABLED != true)" },
     st, {})
  else
    -- placeholder handling: fileBase64 is the literal placeholder, or is
    -- falsy while a screenshot is cached
    let resolved : Option String × String × Option String :=
      if fileBase64 = some "base64_encoded_screenshot_data" ∨
          fileBase64 = some "use_last_screenshot" ∨
          (strTruthy fileBase64 = false ∧ st.lastScreenshotData.isSome = true) then
        match st.lastScreenshotData with
        | some d => (some d.image, d.filename, some d.mimeType)
        | none => (none, filename0, mimeType)
      else (fileBase64, filename0, mimeType)
    let attachment : Option EmailAttachment :=
      if strTruthy resolved.1 = true ∧
          resolved.1 ≠ some "base64_encoded_screenshot_data" then
        some { filename := resolved.2.1, content := resolved.1.getD "",
               contentType := resolved.2.2 }
      else none
    match env.sendMail with
    | .error e => ({ success := false, error := some e }, st, {})
    | .ok msgId =>
        let st' :=
          if st.lastScreenshotData.isSome then
            { st with lastScreenshotData := none }
          else st
        ({ success := true, messageId := some msgId, sentTo := some recipient },
         st', { emailsSent := [(recipient, attachment)] })

/-- `path.join(__dirname, 'temp_screenshot.png')` with the module directory
abstracted away. -/
def tempScreenshotPath : String := "temp_screenshot.png"

/-- The per-platform screenshot command (tools.js lines 641-663); the long
PowerShell payload for win32 is abbreviated to a marker string since no claim
inspects command text. -/
def screenshotCommand (platform : String) : Option String :=
  if platform = "linux" then
    some ("gnome-screenshot -f " ++ tempScreenshotPath ++ " 2>/dev/null || scrot "
      ++ tempScreenshotPath)
  else if platform = "darwin" then
    some ("screencapture -x " ++ tempScreenshotPath)
  else if platform = "win32" then
    some "powershell -command capture-primary-screen-to-png"
  else none

/-- `takeScreenshot` (tools.js lines 636-705): run the platform command, read
and delete the temp file, store the image in the single-slot cache, and
return either the full image (internal `returnImage=true` use) or lightweight
metadata.  The timestamped filename is built from the clock oracle (with the
colon replacement folded in). -/
def takeScreenshot (returnImage : Bool) (env : Env) (st : ToolsState) :
    ToolResult × ToolsState × Effects :=
  match screenshotCommand env.platform with
  | none => ({ success := false, error := some "Unsupported platform" }, st, {})
  | some cmd =>
    match env.execShell cmd with
    | .error e => ({ success := false, error := some e }, st, {})
    | .ok _ =>
      if env.fileExists tempScreenshotPath then
        let b64 := env.readFileB64 tempScreenshotPath
        let fname := "screenshot_" ++ env.nowIso ++ ".png"
        let st' := { st with
          lastScreenshotData := some { image := b64, filename := fname,
                                       mimeType := "image/png" } }
        let eff : Effects := { unlinked := [tempScreenshotPath] }
        if returnImage then
          ({ success := true, image := some b64, mimeType := some "image/png",
             filename := some fname }, st', eff)
        else
          ({ success := true,
             message := some ("Screenshot captured successfully: " ++ fname),
             filename := some fname, size := some (b64.length / 1024) },
           st', eff)
      else
        ({ success := false, error := some "Screenshot file not created" }, st, {})

/-! ## Memory tools (`tools.js` lines 804-897) -/

/-- `storeMemory` (tools.js lines 804-828): append an entry built from the
clock and persist (the file write catches its own errors and is not
observable here).  `category` defaults to `general` when `undefined`. -/
def storeMemory (content : Option String) (category : Option String)
    (env : Env) (st : ToolsState) : ToolResult × ToolsState :=
  let m : Memory :=
    { id := env.nowMs, content := content, category := category.getD "general",
      timestamp := env.nowIso, date := env.nowLocale }
  ({ success := true,
     message := some "Memory stored successfully and persisted",
     memoryId := some m.id,
     totalMemories := some (st.memoryStore.length + 1) },
   { st with memoryStore := st.memoryStore ++ [m] })

/-- The filter callback of `retrieveMemories`: an entry whose `content` is
`undefined` makes `content.toLowerCase()` throw. -/
def memoryMatches (term : String) (m : Memory) : Except String Bool :=
  match m.content with
  | none => .error "Cannot read properties of undefined (reading toLowerCase)"
  | some c =>
      .ok (jsIncludes (jsToLower c) term
        || jsIncludes (jsToLower m.category) term)

/-- `Array.prototype.filter` with a callback that can throw: elements are
visited left to right and the first throw aborts the whole call. -/
def filterE {α : Type} (p : α → Except String Bool) : List α →
    Except String (List α)
  | [] => .ok []
  | a :: as =>
    match p a with
    | .error e => .error e
    | .ok b =>
      match filterE p as with
      | .error e => .error e
      | .ok rest => .ok (if b then a :: rest else rest)

/-- The `{content, category, date}` view `retrieveMemories` maps entries to. -/
def memoryView (m : Memory) : MemoryView :=
  { content := m.content, category := m.category, date := m.date }

/-- `retrieveMemories` (tools.js lines 835-866): a falsy or blank query
(`!query || query.trim() === ''`) returns every entry; otherwise entries are
kept when the lowercased query occurs in the lowercased content or
category. -/
def retrieveMemories (query : Option String) (st : ToolsState) : ToolResult :=
  if query = none ∨ jsTrim (query.getD "") = "" then
    { success := true, count := some st.memoryStore.length,
      memories := st.memoryStore.map memoryView }
  else
    let term := jsToLower (query.getD "")
    match filterE (memoryMatches term) st.memoryStore with
    | .error e => { success := false, error := some e }
    | .ok results =>
        { success := true, count := some results.length,
          memories := results.map memoryView }

/-- `clearMemories` (tools.js lines 873-897): a truthy category keeps exactly
the entries whose lowercased category differs from it; a falsy category
(absent or the empty string) clears everything. -/
def clearMemories (category : Option String) (st : ToolsState) :
    ToolResult × ToolsState :=
  let beforeCount := st.memoryStore.length
  let newStore :=
    if strTruthy category then
      st.memoryStore.filter
        (fun m => jsToLower m.category != jsToLower (category.getD ""))
    else []
  let clearedCount := beforeCount - newStore.length
  let msg :=
    if strTruthy category then
      "Cleared " ++ toString clearedCount ++ " memories from category "
        ++ category.getD ""
    else "Cleared all " ++ toString clearedCount ++ " memories"
  ({ success := true, message := some msg,
     remainingMemories := some newStore.length },
   { st with memoryStore := newStore })

/-! ## Clipboard, URL and file tools (`tools.js` lines 712-1436)

Command strings are built as in the source where short; shell quoting and the
long PowerShell payloads are abbreviated since no claim inspects command
text. -/

/-- `copyToClipboard` (tools.js lines 712-737).  A missing `text` argument
makes `text.replace` throw before any command runs; the throw is caught by
the catch block of the function itself. -/
def copyToClipboard (text : Option String) (env : Env) : ToolResult :=
  match text with
  | none => { success := false,
              error := some "Cannot read properties of undefined (reading replace)" }
  | some t =>
    let cmd :=
      if env.platform = "linux" then
        some ("echo " ++ t ++ " | xclip -selection clipboard 2>/dev/null || echo "
          ++ t ++ " | xsel --clipboard")
      else if env.platform = "darwin" then some ("echo " ++ t ++ " | pbcopy")
      else if env.platform = "win32" then
        some ("powershell -command Set-Clipboard -Value " ++ t)
      else none
    match cmd with
    | none => { success := false, error := some "Unsupported platform" }
    | some c =>
      match env.execShell c with
      | .error e => { success := false, error := some e }
      | .ok _ => { success := true,
                   message := some "Text copied to clipboard successfully" }

/-- `getClipboardText` (tools.js lines 743-765). -/
def getClipboardText (env : Env) : ToolResult :=
  let cmd :=
    if env.platform = "linux" then
      some "xclip -selection clipboard -o 2>/dev/null || xsel --clipboard"
    else if env.platform = "darwin" then some "pbpaste"
    else if env.platform = "win32" then some "powershell -command Get-Clipboard"
    else none
  match cmd with
  | none => { success := false, error := some "Unsupported platform" }
  | some c =>
    match env.execShell c with
    | .error e => { success := false, error := some e }
    | .ok stdout => { success := true, text := some stdout.trim }

/-- `pasteFromClipboard` (tools.js lines 771-796). -/
def pasteFromClipboard (env : Env) : ToolResult :=
  let cmd :=
    if env.platform = "linux" then some "xdotool key ctrl+v"
    else if env.platform = "darwin" then
      some "osascript keystroke v using command down"
    else if env.platform = "win32" then
      some "powershell -command SendKeys ctrl-v"
    else none
  match cmd with
  | none => { success := false, error := some "Unsupported platform" }
  | some c =>
    match env.execShell c with
    | .error e => { success := false, error := some e }
    | .ok _ => { success := true,
                 message := some "Paste command executed successfully" }

/-- `path.extname`, approximated on the last dot-separated component; only
feeds `getMimeType`. -/
def jsExtname (name : String) : String :=
  match name.splitOn "." with
  | [] => ""
  | [_] => ""
  | parts => "." ++ parts.getLastD ""

/-- `getMimeType` (tools.js lines 1413-1436). -/
def getMimeType (filename : String) : String :=
  let ext := (jsExtname filename).toLower
  let mimeTypes : List (String × String) :=
    [(".txt", "text/plain"), (".pdf", "application/pdf"),
     (".doc", "application/msword"),
     (".docx", "application/vnd.openxmlformats-officedocument.wordprocessingml.document"),
     (".png", "image/png"), (".jpg", "image/jpeg"), (".jpeg", "image/jpeg"),
     (".gif", "image/gif"), (".zip", "application/zip"),
     (".json", "application/json"), (".xml", "application/xml"),
     (".csv", "text/csv"), (".html", "text/html"), (".css", "text/css"),
     (".js", "application/javascript"), (".mp3", "audio/mpeg"),
     (".mp4", "video/mp4"), (".wav", "audio/wav")]
  (List.lookup ext mimeTypes).getD "application/octet-stream"

/-- `readFile` (tools.js lines 905-963). -/
def readFile (filePath : Option String) (asBase64 : Bool) (env : Env) :
    ToolResult :=
  match filePath with
  | none => { success := false,
              error := some "The path argument must be of type string" }
  | some fp =>
    let absolutePath := resolveAbs env fp
    if !env.fileExists absolutePath then
      { success := false, error := some ("File not found: " ++ fp) }
    else if !env.isFile absolutePath then
      { success := false, error := some ("Path is not a file: " ++ fp) }
    else if asBase64 then
      { success := true, filename := some (jsBasename absolutePath),
        size := some (env.fileSize absolutePath),
        mimeType := some (getMimeType (jsBasename absolutePath)),
        content := some (env.readFileB64 absolutePath) }
    else
      { success := true, filename := some (jsBasename absolutePath),
        size := some (env.fileSize absolutePath),
        content := some (env.readFileUtf8 absolutePath) }

/-- `browseFiles` (tools.js lines 971-1048): existence and directory checks,
then the listing with hidden entries filtered out unless requested.  The
per-item details and the directories-first sort are not modelled (no claim
observes them); the item count is. -/
def browseFiles (dirPath : Option String) (includeHidden : Bool) (env : Env) :
    ToolResult :=
  let dp := dirPath.getD env.homedir
  let absolutePath := resolveAbs env dp
  if !env.fileExists absolutePath then
    { success := false, error := some ("Directory not found: " ++ dp) }
  else if !env.isDir absolutePath then
    { success := false, error := some ("Path is not a directory: " ++ dp) }
  else
    let items :=
      if includeHidden then env.readDir absolutePath
      else (env.readDir absolutePath).filter (fun i => !i.startsWith ".")
    { success := true, count := some items.length,
      message := some ("Found " ++ toString items.length ++ " items in "
        ++ absolutePath) }

/-- `createFile` (tools.js lines 1057-1091). -/
def createFile (filePath : Option String) (content : Option String)
    (overwrite : Bool) (env : Env) : ToolResult :=
  match filePath with
  | none => { success := false,
              error := some "The path argument must be of type string" }
  | some fp =>
    let absolutePath := resolveAbs env fp
    if env.fileExists absolutePath && !overwrite then
      { success := false,
        error := some ("File already exists: " ++ fp
          ++ ". Set overwrite=true to replace it.") }
    else
      match env.writeResult absolutePath with
      | .error e => { success := false, error := some e }
      | .ok _ =>
          let _ := content
          { success := true, filename := some (jsBasename absolutePath),
            size := some (env.fileSize absolutePath) }

/-- `editFile` (tools.js lines 1100-1140). -/
def editFile (filePath : Option String) (content : Option String)
    (mode : Option String) (env : Env) : ToolResult :=
  match filePath with
  | none => { success := false,
              error := some "The path argument must be of type string" }
  | some fp =>
    let absolutePath := resolveAbs env fp
    if !env.fileExists absolutePath then
      { success := false,
        error := some ("File not found: " ++ fp
          ++ ". Use create_file to create new files.") }
    else if !env.isFile absolutePath then
      { success := false, error := some ("Path is not a file: " ++ fp) }
    else
      match env.writeResult absolutePath with
      | .error e => { success := false, error := some e }
      | .ok _ =>
          let _ := content
          { success := true, filename := some (jsBasename absolutePath),
            size := some (env.fileSize absolutePath),
            message := some (if mode == some "append" then "appended" else "updated") }

/-- `moveFile` (tools.js lines 1149-1190). -/
def moveFile (sourcePath destinationPath : Option String) (overwrite : Bool)
    (env : Env) : ToolResult :=
  match sourcePath, destinationPath with
  | some src, some dst =>
    let absoluteSource := resolveAbs env src
    let absoluteDestination := resolveAbs env dst
    if !env.fileExists absoluteSource then
      { success := false, error := some ("Source file not found: " ++ src) }
    else if env.fileExists absoluteDestination && !overwrite then
      { success := false,
        error := some ("Destination already exists: " ++ dst
          ++ ". Set overwrite=true to replace it.") }
    else
      match env.renameResult absoluteSource with
      | .error e => { success := false, error := some e }
      | .ok _ =>
          { success := true, filename := some (jsBasename absoluteDestination) }
  | _, _ => { success := false,
              error := some "The path argument must be of type string" }

/-- `renameFile` (tools.js lines 1198-1237). -/
def renameFile (filePath newName : Option String) (env : Env) : ToolResult :=
  match filePath, newName with
  | some fp, some nn =>
    let absolutePath := resolveAbs env fp
    if !env.fileExists absolutePath then
      { success := false, error := some ("File not found: " ++ fp) }
    else
      let newPath := env.dirnameOf absolutePath ++ "/" ++ nn
      if env.fileExists newPath then
        { success := false,
          error := some ("A file with name " ++ nn
            ++ " already exists in this directory.") }
      else
        match env.renameResult absolutePath with
        | .error e => { success := false, error := some e }
        | .ok _ => { success := true, filename := some nn }
  | _, _ => { success := false,
              error := some "The path argument must be of type string" }

/-- `deleteFile` (tools.js lines 1245-1289): the confirmation gate comes
first, before any filesystem access; `fs.unlinkSync` is reached only behind
the existence and regular-file checks, and the attempt is recorded in
`Effects.unlinked`. -/
def deleteFile (filePath : Option String) (confirm : Bool) (env : Env) :
    ToolResult × Effects :=
  if !confirm then
    ({ success := false,
       error := some "Deletion requires confirmation. Set confirm=true to delete the file." },
     {})
  else
    match filePath with
    | none => ({ success := false,
                 error := some "The path argument must be of type string" }, {})
    | some fp =>
      let absolutePath := resolveAbs env fp
      if !env.fileExists absolutePath then
        ({ success := false, error := some ("File not found: " ++ fp) }, {})
      else if !env.isFile absolutePath then
        ({ success := false,
           error := some ("Path is not a file: " ++ fp
             ++ ". Use a directory deletion tool for directories.") }, {})
      else
        let filename := jsBasename absolutePath
        let sizeKB := env.fileSize absolutePath / 1024
        match env.unlinkResult absolutePath with
        | .error e =>
            ({ success := false, error := some e },
             { unlinked := [absolutePath] })
        | .ok _ =>
            ({ success := true, deletedFile := some filename,
               deletedPath := some absolutePath,
               size := some (env.fileSize absolutePath),
               message := some ("File deleted successfully: " ++ filename
                 ++ " (" ++ toString sizeKB ++ "KB)") },
             { unlinked := [absolutePath] })

/-- `openUrl` (tools.js lines 1296-1327). -/
def openUrl (url : Option String) (env : Env) : ToolResult :=
  match url with
  | none => { success := false,
              error := some "Cannot read properties of undefined (reading startsWith)" }
  | some u0 =>
    let u :=
      if !u0.startsWith "http://" && !u0.startsWith "https://" then
        "https://" ++ u0
      else u0
    let cmd :=
      if env.platform = "linux" then some ("xdg-open " ++ u)
      else if env.platform = "darwin" then some ("open " ++ u)
      else if env.platform = "win32" then some ("start " ++ u)
      else none
    match cmd with
    | none => { success := false, error := some "Unsupported platform" }
    | some c =>
      match env.execShell c with
      | .error e => { success := false, error := some e }
      | .ok _ => { success := true, url := some u,
                   message := some ("Opened URL in browser: " ++ u) }

/-- `fillForm` (tools.js lines 1335-1371); the `URLSearchParams` encoding is
approximated by a plain key=value join. -/
def fillForm (url : Option String) (formData : List (String × String))
    (env : Env) : ToolResult :=
  if !strTruthy url then
    { success := false, error := some "URL is required" }
  else
    let u0 := url.getD ""
    let u :=
      if !u0.startsWith "http://" && !u0.startsWith "https://" then
        "https://" ++ u0
      else u0
    let queryParams :=
      String.intercalate "&" (formData.map (fun p => p.1 ++ "=" ++ p.2))
    let fullUrl := if queryParams ≠ "" then u ++ "?" ++ queryParams else u
    let result := openUrl (some fullUrl) env
    if result.success then
      { success := true, url := some fullUrl,
        message := some ("Opened form URL with pre-filled data: " ++ fullUrl) }
    else result

/-- `clickElement` (tools.js lines 1379-1406). -/
def clickElement (url selector : Option String) (env : Env) : ToolResult :=
  if !strTruthy url then
    { success := false, error := some "URL is required" }
  else if !strTruthy selector then
    { success := false, error := some "Element selector is required" }
  else
    let _ := openUrl url env
    { success := true, url := url, message := some "Opened URL" }

/-! ## Tool executor (`tools.js` lines 1714-1793) -/

/-- The loosely-typed argument object of a tool call: every property the
dispatch `switch` reads, each `Option` because any of them may be absent.
The executor itself receives `Option Args` since the whole object may be
`null` or `undefined`. -/
structure Args where
  message : Option String := none
  recipientEmail : Option String := none
  senderInfo : Option String := none
  fileBase64 : Option String := none
  filename : Option String := none
  mimeType : Option String := none
  text : Option String := none
  content : Option String := none
  category : Option String := none
  query : Option String := none
  filePath : Option String := none
  asBase64 : Option Bool := none
  dirPath : Option String := none
  includeHidden : Option Bool := none
  overwrite : Option Bool := none
  mode : Option String := none
  sourcePath : Option String := none
  destinationPath : Option String := none
  newName : Option String := none
  confirm : Option Bool := none
  url : Option String := none
  formData : List (String × String) := []
  selector : Option String := none
deriving Repr, DecidableEq

/-- Reading a property off a `null`/`undefined` argument object throws a
TypeError; inside `executeTool` that throw lands in the executor catch
block. -/
def jsArgs : Option Args → Except String Args
  | some a => .ok a
  | none => .error "Cannot read properties of undefined"

/-- Record that the executor dispatched to the named implementation
function. -/
def withInvoked (implName : String) (eff : Effects) : Effects :=
  { eff with invoked := implName :: eff.invoked }

/-- The `try { switch ... }` body of `executeTool`: pick the implementation by
name, evaluate the `args.x` property reads (which throw when `args` is
absent), run the implementation and record it in `Effects.invoked`.  The
`default` arm returns the unknown-function error result.  An `Except.error`
is a JavaScript exception travelling to the executor catch block. -/
def dispatchTool (name : String) (args : Option Args) (env : Env)
    (st : ToolsState) : Except String (ToolResult × ToolsState × Effects) :=
  match name with
  | "send_email_to_shubharthak" => do
      let a ← jsArgs args
      let (r, st', eff) := sendEmailToShubharthak a.message a.recipientEmail
        a.senderInfo a.fileBase64 a.filename a.mimeType env st
      .ok (r, st', withInvoked "sendEmailToShubharthak" eff)
  | "take_screenshot" =>
      let (r, st', eff) := takeScreenshot false env st
      .ok (r, st', withInvoked "takeScreenshot" eff)
  | "copy_to_clipboard" => do
      let a ← jsArgs args
      .ok (copyToClipboard a.text env, st, withInvoked "copyToClipboard" {})
  | "get_clipboard_text" =>
      .ok (getClipboardText env, st, withInvoked "getClipboardText" {})
  | "paste_from_clipboard" =>
      .ok (pasteFromClipboard env, st, withInvoked "pasteFromClipboard" {})
  | "store_memory" => do
      let a ← jsArgs args
      let (r, st') := storeMemory a.content a.category env st
      .ok (r, st', withInvoked "storeMemory" {})
  | "retrieve_memories" => do
      let a ← jsArgs args
      .ok (retrieveMemories a.query st, st, withInvoked "retrieveMemories" {})
  | "clear_memories" => do
      let a ← jsArgs args
      let (r, st') := clearMemories a.category st
      .ok (r, st', withInvoked "clearMemories" {})
  | "read_file" => do
      let a ← jsArgs args
      .ok (readFile a.filePath (a.asBase64.getD false) env, st,
        withInvoked "readFile" {})
  | "browse_files" => do
      let a ← jsArgs args
      .ok (browseFiles a.dirPath (a.includeHidden.getD false) env, st,
        withInvoked "browseFiles" {})
  | "create_file" => do
      let a ← jsArgs args
      .ok (createFile a.filePath a.content (a.overwrite.getD false) env, st,
        withInvoked "createFile" {})
  | "edit_file" => do
      let a ← jsArgs args
      .ok (editFile a.filePath a.content a.mode env, st,
        withInvoked "editFile" {})
  | "move_file" => do
      let a ← jsArgs args
      .ok (moveFile a.sourcePath a.destinationPath (a.overwrite.getD false) env,
        st, withInvoked "moveFile" {})
  | "rename_file" => do
      let a ← jsArgs args
      .ok (renameFile a.filePath a.newName env, st, withInvoked "renameFile" {})
  | "delete_file" => do
      let a ← jsArgs args
      let (r, eff) := deleteFile a.filePath (a.confirm.getD false) env
      .ok (r, st, withInvoked "deleteFile" eff)
  | "open_url" => do
      let a ← jsArgs args
      .ok (openUrl a.url env, st, withInvoked "openUrl" {})
  | "fill_form" => do
      let a ← jsArgs args
      .ok (fillForm a.url a.formData env, st, withInvoked "fillForm" {})
  | "click_element" => do
      let a ← jsArgs args
      .ok (clickElement a.url a.selector env, st, withInvoked "clickElement" {})
  | _ => .ok ({ success := false,
                error := some ("Unknown function: " ++ name) }, st, {})

/-- `executeTool` (tools.js lines 1714-1793): a falsy `ENABLED_TOOLS[name]`
(flag `false`, or name not in the registry at all) short-circuits into the
disabled error result before the `switch`; otherwise the dispatch runs under
`try`, and a thrown error is caught and wrapped into
`{success:false, error: message}`.  The codomain has no error component:
nothing propagates past this boundary. -/
def executeTool (name : String) (args : Option Args) (env : Env)
    (st : ToolsState) : ToolResult × ToolsState × Effects :=
  if lookupFlag st.enabledTools name then
    match dispatchTool name args env st with
    | .ok out => out
    | .error m => ({ success := false, error := some m }, st, {})
  else
    ({ success := false, error := some "Tool disabled by configuration" }, st, {})

/-! ## Modality state machine and client-frame relay
(`server.js` lines 420-809) -/

/-- Client-to-backend WebSocket frames relevant to the relay (`server.js`
lines 667-797). -/
inductive ClientMsg where
  | setModality (modality : String)
  | interrupt
  | audioFrame (data : String)
  | videoFrame (data : String) (mimeType : Option String)
  | cameraFrame (data : String) (mimeType : Option String)
  | textFrame (text : String)
deriving Repr, DecidableEq

/-- A call on the upstream Gemini session handle. -/
inductive UpstreamCall where
  | realtimeAudio (data : String) (mimeType : String)
  | realtimeVideo (data : String) (mimeType : String)
  | clientContent (text : String)
deriving Repr, DecidableEq

/-- Per-connection state: the `currentModality` variable and whether
`geminiWs` holds a live session handle. -/
structure ConnState where
  currentModality : String
  hasGemini : Bool
deriving Repr, DecidableEq

/-- State right after `wss.on('connection')` runs (`server.js` lines
420-424, 663-664): `currentModality = 'AUDIO'`; the initial
`connectToGemini('AUDIO')` leaves a session handle exactly when it
succeeds. -/
def initialConnState (connectOk : Bool) : ConnState :=
  { currentModality := "AUDIO", hasGemini := connectOk }

/-- One client frame through the `clientWs.on('message')` handler
(`server.js` lines 667-797), processed to completion: the returned state is
the one after any modality switch has finished.  `connectOk` is the outcome
of `ai.live.connect` for a switch (unused otherwise).  Returns the new state,
the calls forwarded to the upstream handle, and the frame types sent back to
the client. -/
def handleClientMessage (st : ConnState) (msg : ClientMsg) (connectOk : Bool) :
    ConnState × List UpstreamCall × List String :=
  match msg with
  | .setModality m =>
      if m = st.currentModality then (st, [], [])
      else
        -- currentModality := SWITCHING, drain delay, then reconnect; on
        -- success the new modality is installed with a fresh handle, on
        -- failure the old modality is restored but geminiWs stays null
        if connectOk then
          ({ currentModality := m, hasGemini := true }, [], ["modality_changed"])
        else
          ({ currentModality := st.currentModality, hasGemini := false }, [],
           ["modality_changed"])
  | .interrupt =>
      if st.hasGemini then (st, [], ["interrupted"]) else (st, [], [])
  | .audioFrame d =>
      if st.hasGemini then
        if st.currentModality ≠ "AUDIO" then (st, [], [])
        else (st, [.realtimeAudio d "audio/pcm;rate=16000"], [])
      else (st, [], [])
  | .videoFrame d mt =>
      if st.hasGemini then
        if st.currentModality = "SWITCHING" then (st, [], [])
        else (st, [.realtimeVideo d (mt.getD "image/jpeg")], [])
      else (st, [], [])
  | .cameraFrame d mt =>
      if st.hasGemini then
        if st.currentModality = "SWITCHING" then (st, [], [])
        else (st, [.realtimeVideo d (mt.getD "image/jpeg")], [])
      else (st, [], [])
  | .textFrame t =>
      if st.hasGemini then
        if st.currentModality = "SWITCHING" then (st, [], [])
        else (st, [.clientContent t], [])
      else (st, [], [])

/-- The values `currentModality` passes through while one frame is handled:
a set-modality frame for a different modality first installs `SWITCHING` and
then the terminal value (the target on connect success, the prior modality on
failure); every other frame never assigns the variable. -/
def eventStates (st : ConnState) (msg : ClientMsg) (connectOk : Bool) :
    List String :=
  match msg with
  | .setModality m =>
      if m = st.currentModality then []
      else ["SWITCHING", if connectOk then m else st.currentModality]
  | _ => []

/-- All values `currentModality` takes while a sequence of frames (each
paired with its connect outcome) is handled from `st`, excluding the starting
value. -/
def runStates (st : ConnState) : List (ClientMsg × Bool) → List String
  | [] => []
  | (msg, ok) :: rest =>
      eventStates st msg ok
        ++ runStates (handleClientMessage st msg ok).1 rest

/-- Every value of `currentModality` over a connection: `AUDIO` at connect,
then everything the frames produce. -/
def modalityTrace (connectOk : Bool) (events : List (ClientMsg × Bool)) :
    List String :=
  "AUDIO" :: runStates (initialConnState connectOk) events

/-! ## Derived observations and concrete fixtures used by the theorems -/

/-- The names inside the `functionDeclarations` batch of a
`getToolDeclarations` output, in order. -/
def declaredFnNames (st : ToolsState) : List String :=
  ((getToolDeclarations st).map (fun d =>
    match d with
    | .googleSearch => []
    | .functionDeclarations fds => fds.map FunctionDecl.name)).flatten

/-- A frame type the relay forwards to the upstream session when the modality
gate permits: audio, video, camera or text. -/
def mediaFrame : ClientMsg → Prop
  | .audioFrame _ => True
  | .videoFrame _ _ => True
  | .cameraFrame _ _ => True
  | .textFrame _ => True
  | _ => False

/-- The two terminal modality values of the bridge. -/
def goodModality (m : String) : Prop := m = "AUDIO" ∨ m = "TEXT"

/-- A transition the specification allows: terminal to `SWITCHING`, or
`SWITCHING` to terminal. -/
def allowedStep (a b : String) : Prop :=
  (goodModality a ∧ b = "SWITCHING") ∨ (a = "SWITCHING" ∧ goodModality b)

/-- Well-formed client traffic: every `set_modality` frame carries `AUDIO` or
`TEXT`. -/
def wfEvents (evs : List (ClientMsg × Bool)) : Prop :=
  ∀ e ∈ evs, ∀ m, e.1 = ClientMsg.setModality m → goodModality m

/-- A fully concrete environment: linux platform, email configured and
succeeding, every filesystem probe answering positively. -/
def sampleEnv : Env where
  emailEnabled := true
  sendMail := .ok "msg-id-1"
  platform := "linux"
  execShell := fun _ => .ok ""
  fileExists := fun _ => true
  isFile := fun _ => true
  isDir := fun _ => true
  fileSize := fun _ => 2048
  readFileB64 := fun _ => "IMGDATA"
  readFileUtf8 := fun _ => "text"
  readDir := fun _ => []
  writeResult := fun _ => .ok ()
  renameResult := fun _ => .ok ()
  unlinkResult := fun _ => .ok ()
  resolvePath := fun p => "/cwd/" ++ p
  dirnameOf := fun _ => "/dir"
  homedir := "/home/user"
  nowMs := 111
  nowIso := "2026-10-12T00-00-00.000Z"
  nowLocale := "10/12/2026"

/-- Registry state with the email tool switched on, as `setEnabledTools`
produces it. -/
def emailOnState : ToolsState :=
  { initialToolsState with
    enabledTools := mergeFlags defaultEnabledFlags
      [("send_email_to_shubharthak", true)] }

/-- Registry state with two custom tools switched on. -/
def twoOnState : ToolsState :=
  { initialToolsState with
    enabledTools := mergeFlags defaultEnabledFlags
      [("send_email_to_shubharthak", true), ("take_screenshot", true)] }

/-- A concrete stored memory in category `a`. -/
def memSampleA : Memory :=
  { id := 1, content := some "abc", category := "a", timestamp := "t1",
    date := "d1" }

/-- A concrete stored memory in category `b`. -/
def memSampleB : Memory :=
  { id := 2, content := some "xyz", category := "b", timestamp := "t2",
    date := "d2" }

/-- Tools state holding the two concrete memories. -/
def memState : ToolsState :=
  { initialToolsState with memoryStore := [memSampleA, memSampleB] }

/-! ## Theorems -/

/-- C1 (counterexample).  The claim says a disabled tool yields
`{success:false, error:"disabled"}`.  At the concrete input
`take_screenshot` (disabled in the default registry) the executor does
return `success:false`, but the error string is
`Tool disabled by configuration`, not `disabled`. -/
theorem executeTool_disabled_error_text_cex :
    List.lookup "take_screenshot" initialToolsState.enabledTools = some false ∧
    (executeTool "take_screenshot" none sampleEnv initialToolsState).1.success
      = false ∧
    (executeTool "take_screenshot" none sampleEnv initialToolsState).1.error
      = some "Tool disabled by configuration" ∧
    (executeTool "take_screenshot" none sampleEnv initialToolsState).1.error
      ≠ some "disabled" := by
  refine ⟨by decide, by decide, by decide, by decide⟩

/-- C1 (amended).  For every tool whose enabled flag in the registry is
`false`, `executeTool` returns `{success:false,
error:"Tool disabled by configuration"}`, leaves the state untouched and
produces no effects at all; in particular the underlying implementation
function is never invoked (`Effects.invoked` stays empty). -/
theorem executeTool_disabled_blocks (name : String) (args : Option Args)
    (env : Env) (st : ToolsState)
    (h : List.lookup name st.enabledTools = some false) :
    executeTool name args env st
      = ({ success := false, error := some "Tool disabled by configuration" },
         st, ({} : Effects)) ∧
    (executeTool name args env st).2.2.invoked = [] := by
  have he : executeTool name args env st
      = ({ success := false, error := some "Tool disabled by configuration" },
         st, ({} : Effects)) := by
    simp [executeTool, lookupFlag, h]
  exact ⟨he, by rw [he]⟩

/-- C1 (witness): the amended theorem applied at the disabled
`take_screenshot` tool in the default registry. -/
theorem executeTool_disabled_blocks_witness :
    List.lookup "take_screenshot" initialToolsState.enabledTools = some false ∧
    (executeTool "take_screenshot" none sampleEnv initialToolsState
        = ({ success := false,
             error := some "Tool disabled by configuration" },
           initialToolsState, ({} : Effects)) ∧
      (executeTool "take_screenshot" none sampleEnv
        initialToolsState).2.2.invoked = []) :=
  ⟨by decide,
   executeTool_disabled_blocks "take_screenshot" none sampleEnv
     initialToolsState (by decide)⟩

/-- C2.  For every tool name that is not a registry key at all,
`ENABLED_TOOLS[name]` reads as `undefined`, so `executeTool` takes the same
guarded early return: `success:false`, state untouched, no effects.  The
codomain of `executeTool` has no error component, which is the no-throw
guarantee: nothing escapes its boundary for any argument object. -/
theorem executeTool_unknown_tool_safe (name : String) (args : Option Args)
    (env : Env) (st : ToolsState)
    (h : List.lookup name st.enabledTools = none) :
    (executeTool name args env st).1.success = false ∧
    executeTool name args env st
      = ({ success := false, error := some "Tool disabled by configuration" },
         st, ({} : Effects)) := by
  have he : executeTool name args env st
      = ({ success := false, error := some "Tool disabled by configuration" },
         st, ({} : Effects)) := by
    simp [executeTool, lookupFlag, h]
  exact ⟨by rw [he], he⟩

/-- C2 (witness): a name far from the registry. -/
theorem executeTool_unknown_tool_safe_witness :
    List.lookup "frobnicate" initialToolsState.enabledTools = none ∧
    ((executeTool "frobnicate" (some {}) sampleEnv initialToolsState).1.success
        = false ∧
      executeTool "frobnicate" (some {}) sampleEnv initialToolsState
        = ({ success := false,
             error := some "Tool disabled by configuration" },
           initialToolsState, ({} : Effects))) :=
  ⟨by decide,
   executeTool_unknown_tool_safe "frobnicate" (some {}) sampleEnv
     initialToolsState (by decide)⟩

/-- C8.  Whatever the `try` block of `executeTool` throws while dispatching
an enabled tool (modelled by `dispatchTool` returning `Except.error m`) is
caught and wrapped into `{success:false, error:m}` with the state untouched;
since `executeTool` itself returns a plain result triple, no exception
propagates past its boundary for any name, argument object, environment or
state. -/
theorem executeTool_catches_throws (name : String) (args : Option Args)
    (env : Env) (st : ToolsState) (m : String)
    (henabled : lookupFlag st.enabledTools name = true)
    (hthrow : dispatchTool name args env st = .error m) :
    executeTool name args env st
      = ({ success := false, error := some m }, st, ({} : Effects)) := by
  simp [executeTool, henabled, hthrow]

/-- C8 (witness): `send_email_to_shubharthak` enabled and called with a
missing argument object; the property read throws inside the `try` block and
the executor wraps it. -/
theorem executeTool_catches_throws_witness :
    lookupFlag emailOnState.enabledTools "send_email_to_shubharthak" = true ∧
    dispatchTool "send_email_to_shubharthak" none sampleEnv emailOnState
      = .error "Cannot read properties of undefined" ∧
    executeTool "send_email_to_shubharthak" none sampleEnv emailOnState
      = ({ success := false,
           error := some "Cannot read properties of undefined" },
         emailOnState, ({} : Effects)) :=
  ⟨by decide, by rfl,
   executeTool_catches_throws "send_email_to_shubharthak" none sampleEnv
     emailOnState "Cannot read properties of undefined" (by decide) (by rfl)⟩

/-- If some supplied key is unknown, the validation loop of a setter finds an
unknown key to throw on. -/
lemma firstUnknownKey_of_bad (st : ToolsState) (keys : List String)
    (k : String) (hk : k ∈ keys)
    (hnone : List.lookup k st.enabledTools = none) :
    ∃ k', firstUnknownKey st keys = some k' ∧
      List.lookup k' st.enabledTools = none := by
  unfold firstUnknownKey
  cases hfind : keys.find? (fun k => (List.lookup k st.enabledTools).isNone) with
  | none =>
      exfalso
      have := List.find?_eq_none.mp hfind k hk
      simp [hnone] at this
  | some k' =>
      refine ⟨k', rfl, ?_⟩
      have := List.find?_some hfind
      simpa [Option.isNone_iff_eq_none] using this

/-- If the validation loop finds nothing to throw on, every supplied key is a
registry key. -/
lemma firstUnknownKey_none (st : ToolsState) (keys : List String)
    (h : firstUnknownKey st keys = none) :
    ∀ k ∈ keys, (List.lookup k st.enabledTools).isSome := by
  intro k hk
  have := List.find?_eq_none.mp h k hk
  simpa [Option.isNone_iff_eq_none, Option.isSome_iff_ne_none] using this

/-- C9.  Each of the three registry setters validates every supplied key
before mutating anything.  Conjuncts one to three: an unknown key makes the
setter throw `Unknown tool: <key>` for some unknown key, producing no new
state at all, so the enabled flags, the order and the async settings are all
left as they were.  Conjuncts four to six: a successful call implies every
key was known, and it changes only the targeted component of the state. -/
theorem setters_validate_before_mutate :
    (∀ (cfg : List (String × Bool)) (st : ToolsState) (k : String),
       k ∈ cfg.map Prod.fst → List.lookup k st.enabledTools = none →
       ∃ k', setEnabledTools cfg st = .error ("Unknown tool: " ++ k') ∧
         List.lookup k' st.enabledTools = none) ∧
    (∀ (cfg : List (String × Bool)) (st : ToolsState) (k : String),
       k ∈ cfg.map Prod.fst → List.lookup k st.enabledTools = none →
       ∃ k', setToolAsyncSettings cfg st = .error ("Unknown tool: " ++ k') ∧
         List.lookup k' st.enabledTools = none) ∧
    (∀ (ord : List String) (st : ToolsState) (k : String),
       k ∈ ord → List.lookup k st.enabledTools = none →
       ∃ k', setToolOrder ord st = .error ("Unknown tool: " ++ k') ∧
         List.lookup k' st.enabledTools = none) ∧
    (∀ (cfg : List (String × Bool)) (st st' : ToolsState),
       setEnabledTools cfg st = .ok st' →
       (∀ k ∈ cfg.map Prod.fst, (List.lookup k st.enabledTools).isSome) ∧
       st'.toolOrder = st.toolOrder ∧
       st'.toolAsyncSettings = st.toolAsyncSettings) ∧
    (∀ (cfg : List (String × Bool)) (st st' : ToolsState),
       setToolAsyncSettings cfg st = .ok st' →
       (∀ k ∈ cfg.map Prod.fst, (List.lookup k st.enabledTools).isSome) ∧
       st'.toolOrder = st.toolOrder ∧
       st'.enabledTools = st.enabledTools) ∧
    (∀ (ord : List String) (st st' : ToolsState),
       setToolOrder ord st = .ok st' →
       (∀ k ∈ ord, (List.lookup k st.enabledTools).isSome) ∧
       st'.enabledTools = st.enabledTools ∧
       st'.toolAsyncSettings = st.toolAsyncSettings) := by
  refine ⟨?_, ?_, ?_, ?_, ?_, ?_⟩
  · intro cfg st k hk hnone
    obtain ⟨k', hfind, hk'⟩ := firstUnknownKey_of_bad st (cfg.map Prod.fst) k hk hnone
    exact ⟨k', by simp [setEnabledTools, hfind], hk'⟩
  · intro cfg st k hk hnone
    obtain ⟨k', hfind, hk'⟩ := firstUnknownKey_of_bad st (cfg.map Prod.fst) k hk hnone
    exact ⟨k', by simp [setToolAsyncSettings, hfind], hk'⟩
  · intro ord st k hk hnone
    obtain ⟨k', hfind, hk'⟩ := firstUnknownKey_of_bad st ord k hk hnone
    exact ⟨k', by simp [setToolOrder, hfind], hk'⟩
  · intro cfg st st' hok
    unfold setEnabledTools at hok
    cases hfind : firstUnknownKey st (cfg.map Prod.fst) with
    | some k => simp [hfind] at hok
    | none =>
        simp [hfind] at hok
        exact ⟨firstUnknownKey_none st _ hfind, by rw [← hok], by rw [← hok]⟩
  · intro cfg st st' hok
    unfold setToolAsyncSettings at hok
    cases hfind : firstUnknownKey st (cfg.map Prod.fst) with
    | some k => simp [hfind] at hok
    | none =>
        simp [hfind] at hok
        exact ⟨firstUnknownKey_none st _ hfind, by rw [← hok], by rw [← hok]⟩
  · intro ord st st' hok
    unfold setToolOrder at hok
    cases hfind : firstUnknownKey st ord with
    | some k => simp [hfind] at hok
    | none =>
        simp [hfind] at hok
        exact ⟨firstUnknownKey_none st _ hfind, by rw [← hok], by rw [← hok]⟩

/-- C9 (witness): an update mentioning the unknown key `bogus` is rejected
with the `Unknown tool` error. -/
theorem setters_validate_before_mutate_witness :
    "bogus" ∈ ([("bogus", true)] : List (String × Bool)).map Prod.fst ∧
    List.lookup "bogus" initialToolsState.enabledTools = none ∧
    (∃ k', setEnabledTools [("bogus", true)] initialToolsState
        = .error ("Unknown tool: " ++ k') ∧
      List.lookup k' initialToolsState.enabledTools = none) :=
  ⟨by decide, by decide,
   setters_validate_before_mutate.1 [("bogus", true)] initialToolsState
     "bogus" (by decide) (by decide)⟩


/-- Counting enabled entries of a duplicate-free flag map equals counting its
keys whose lookup is truthy. -/
lemma countTrue_eq_keyFilter : ∀ (m : List (String × Bool)),
    (m.map Prod.fst).Nodup →
    (m.filter (fun p => p.2)).length
      = ((m.map Prod.fst).filter (fun k => lookupFlag m k)).length
  | [], _ => rfl
  | (k, v) :: rest, h => by
    have h' : (k :: rest.map Prod.fst).Nodup := by simpa using h
    obtain ⟨hk, htail⟩ := List.nodup_cons.mp h'
    have ih := countTrue_eq_keyFilter rest htail
    have hself : lookupFlag ((k, v) :: rest) k = v := by
      simp [lookupFlag, List.lookup]
    have hcongr :
        (rest.map Prod.fst).filter (fun k' => lookupFlag ((k, v) :: rest) k')
          = (rest.map Prod.fst).filter (fun k' => lookupFlag rest k') := by
      refine List.filter_congr ?_
      intro k' hk'
      have hne : k' ≠ k := fun hkk => hk (hkk ▸ hk')
      have hb : (k' == k) = false := beq_eq_false_iff_ne.mpr hne
      simp [lookupFlag, List.lookup, hb]
    cases v with
    | true => simp [List.filter_cons, hself, hcongr, ih]
    | false => simp [List.filter_cons, hself, hcongr, ih]

/-- `addBehavior` never changes the declaration name. -/
lemma addBehavior_name (d : FunctionDecl) (toolId : String) (st : ToolsState) :
    (addBehavior d toolId st).name = d.name := by
  unfold addBehavior
  split <;> rfl

/-- The total declared tool count splits into the `googleSearch` marker plus
the enabled custom tools. -/
lemma declaredToolCount_eq (st : ToolsState) :
    declaredToolCount st
      = (if lookupFlag st.enabledTools "googleSearch" then 1 else 0)
        + (customToolIds.filter
            (fun id => lookupFlag st.enabledTools id)).length := by
  unfold declaredToolCount getToolDeclarations
  set l := customToolIds.filter (fun id => lookupFlag st.enabledTools id)
    with hl
  by_cases hgs : lookupFlag st.enabledTools "googleSearch" <;>
    by_cases hpos : 0 < l.length <;>
    simp [hgs, hpos, declCount]
  all_goals have h0 : l.length = 0 := by omega
  · exact List.eq_nil_of_length_eq_zero h0
  · omega

/-- The nested declaration names are exactly the enabled custom tools, in the
fixed source order. -/
lemma declaredFnNames_eq (st : ToolsState) :
    declaredFnNames st
      = customToolIds.filter (fun id => lookupFlag st.enabledTools id) := by
  unfold declaredFnNames getToolDeclarations
  set l := customToolIds.filter (fun id => lookupFlag st.enabledTools id)
    with hl
  have hnames : (l.map (fun id => addBehavior { name := id } id st)).map
      FunctionDecl.name = l := by
    rw [List.map_map]
    have : (FunctionDecl.name ∘ fun id => addBehavior { name := id } id st)
        = fun id => id := by
      funext id
      simp [Function.comp, addBehavior_name]
    rw [this]
    simp
  by_cases hgs : lookupFlag st.enabledTools "googleSearch" <;>
    by_cases hpos : 0 < l.length <;>
    simp [hgs, hpos, hnames]
  all_goals exact List.eq_nil_of_length_eq_zero (by omega)

/-- `{...old, ...upd}` keeps exactly the old key list when every updated key
already exists. -/
lemma mergeFlags_keys (old upd : List (String × Bool))
    (h : ∀ p ∈ upd, (List.lookup p.1 old).isSome) :
    (mergeFlags old upd).map Prod.fst = old.map Prod.fst := by
  unfold mergeFlags
  have hnil : upd.filter (fun p => (List.lookup p.1 old).isNone) = [] := by
    rw [List.filter_eq_nil_iff]
    intro p hp
    simp only [Option.isNone_iff_eq_none]
    exact Option.isSome_iff_ne_none.mp (h p hp)
  rw [hnil, List.append_nil, List.map_map]
  rfl

/-- C3 (counterexample).  The claim says the length of the list returned by
`getToolDeclarations` equals the number of enabled tools.  After enabling two
custom tools next to the default `googleSearch`, three tools are enabled but
the returned list has exactly two elements, because every enabled custom tool
is grouped into the single `functionDeclarations` element. -/
theorem getToolDeclarations_length_cex :
    setEnabledTools
        [("send_email_to_shubharthak", true), ("take_screenshot", true)]
        initialToolsState = .ok twoOnState ∧
    enabledCount twoOnState = 3 ∧
    (getToolDeclarations twoOnState).length = 2 := by
  refine ⟨by rfl, by decide, by decide⟩

/-- C3 (amended).  `getToolDeclarations` is a pure function of the current
registry state, so re-calling it after any toggle reflects the new flags
(no caching).  What tracks the enabled count is the total number of declared
tools: for every state whose key set is the registry key set, the
`googleSearch` marker plus the nested function declarations number exactly
the enabled tools (first conjunct), the nested declaration names are exactly
the enabled custom tools in source order (second conjunct), and
`setEnabledTools` preserves the registry key set, so the count equality is
maintained across every toggle (third conjunct). -/
theorem getToolDeclarations_tracks_enabled :
    (∀ st : ToolsState, st.enabledTools.map Prod.fst = allToolIds →
       declaredToolCount st = enabledCount st) ∧
    (∀ st : ToolsState,
       declaredFnNames st
         = customToolIds.filter (fun id => lookupFlag st.enabledTools id)) ∧
    (∀ (cfg : List (String × Bool)) (st st' : ToolsState),
       setEnabledTools cfg st = .ok st' →
       st'.enabledTools.map Prod.fst = st.enabledTools.map Prod.fst) := by
  refine ⟨?_, ?_, ?_⟩
  · intro st hkeys
    have hnd : (st.enabledTools.map Prod.fst).Nodup := by
      rw [hkeys]; decide
    have h1 := countTrue_eq_keyFilter st.enabledTools hnd
    unfold enabledCount
    rw [declaredToolCount_eq, h1, hkeys]
    by_cases hgs : lookupFlag st.enabledTools "googleSearch" <;>
      simp [allToolIds, List.filter_cons, hgs] <;> omega
  · intro st
    exact declaredFnNames_eq st
  · intro cfg st st' hok
    unfold setEnabledTools at hok
    cases hfind : firstUnknownKey st (cfg.map Prod.fst) with
    | some k => simp [hfind] at hok
    | none =>
        simp [hfind] at hok
        rw [← hok]
        exact mergeFlags_keys st.enabledTools cfg
          (fun p hp => firstUnknownKey_none st _ hfind p.1
            (List.mem_map_of_mem Prod.fst hp))

/-- C3 (witness): the amended count equality at the default registry and the
name characterisation after a toggle. -/
theorem getToolDeclarations_tracks_enabled_witness :
    initialToolsState.enabledTools.map Prod.fst = allToolIds ∧
    declaredToolCount initialToolsState = enabledCount initialToolsState ∧
    declaredFnNames twoOnState
      = customToolIds.filter (fun id => lookupFlag twoOnState.enabledTools id) :=
  ⟨by decide,
   getToolDeclarations_tracks_enabled.1 initialToolsState (by decide),
   getToolDeclarations_tracks_enabled.2.1 twoOnState⟩

/-- C5 (counterexample).  The claim says a second placeholder email with an
empty cache returns an error or a no-screenshot result.  Concretely: after a
successful screenshot and a successful placeholder email (which does clear
the cache), the second placeholder email succeeds anyway — `success:true`,
no `error`, no `message` — and an email with no attachment is handed to the
transporter. -/
theorem screenshot_cache_second_email_cex :
    (takeScreenshot false sampleEnv initialToolsState).2.1.lastScreenshotData.isSome
      = true ∧
    (sendEmailToShubharthak (some "hi") none none (some "use_last_screenshot")
        none none sampleEnv
        (takeScreenshot false sampleEnv initialToolsState).2.1).1.success
      = true ∧
    (sendEmailToShubharthak (some "hi") none none (some "use_last_screenshot")
        none none sampleEnv
        (takeScreenshot false sampleEnv initialToolsState).2.1).2.1.lastScreenshotData
      = none ∧
    (sendEmailToShubharthak (some "again") none none (some "use_last_screenshot")
        none none sampleEnv
        (sendEmailToShubharthak (some "hi") none none (some "use_last_screenshot")
          none none sampleEnv
          (takeScreenshot false sampleEnv initialToolsState).2.1).2.1).1
      = { success := true, messageId := some "msg-id-1",
          sentTo := some "shubharthaksangharsha@gmail.com" } ∧
    (sendEmailToShubharthak (some "again") none none (some "use_last_screenshot")
        none none sampleEnv
        (sendEmailToShubharthak (some "hi") none none (some "use_last_screenshot")
          none none sampleEnv
          (takeScreenshot false sampleEnv initialToolsState).2.1).2.1).2.2.emailsSent
      = [("shubharthaksangharsha@gmail.com", none)] := by
  refine ⟨by decide, by decide, by decide, by decide, by decide⟩

/-- C5 (amended).  First conjunct: a successful screenshot fills the
single-slot cache.  Second conjunct: a placeholder email with a cached
screenshot attaches it, succeeds and clears the cache.  Third conjunct: a
second placeholder email with the cache empty does not fail — it sends
successfully with no attachment (the no-screenshot condition only produces a
console warning), leaving the state unchanged. -/
theorem screenshot_cache_flow :
    (∀ (env : Env) (st : ToolsState) (c o : String),
       screenshotCommand env.platform = some c → env.execShell c = .ok o →
       env.fileExists tempScreenshotPath = true →
       (takeScreenshot false env st).1.success = true ∧
       (takeScreenshot false env st).2.1.lastScreenshotData
         = some { image := env.readFileB64 tempScreenshotPath,
                  filename := "screenshot_" ++ env.nowIso ++ ".png",
                  mimeType := "image/png" }) ∧
    (∀ (env : Env) (st : ToolsState) (d : ScreenshotData) (mid : String)
       (msg : Option String),
       env.emailEnabled = true → env.sendMail = .ok mid →
       st.lastScreenshotData = some d → d.image ≠ "" →
       d.image ≠ "base64_encoded_screenshot_data" →
       sendEmailToShubharthak msg none none (some "use_last_screenshot")
           none none env st
         = ({ success := true, messageId := some mid,
              sentTo := some "shubharthaksangharsha@gmail.com" },
            { st with lastScreenshotData := none },
            { emailsSent := [("shubharthaksangharsha@gmail.com",
                some { filename := d.filename, content := d.image,
                       contentType := some d.mimeType })] })) ∧
    (∀ (env : Env) (st : ToolsState) (mid : String) (msg : Option String),
       env.emailEnabled = true → env.sendMail = .ok mid →
       st.lastScreenshotData = none →
       sendEmailToShubharthak msg none none (some "use_last_screenshot")
           none none env st
         = ({ success := true, messageId := some mid,
              sentTo := some "shubharthaksangharsha@gmail.com" }, st,
            { emailsSent := [("shubharthaksangharsha@gmail.com", none)] })) := by
  refine ⟨?_, ?_, ?_⟩
  · intro env st c o hcmd hexec hfile
    simp [takeScreenshot, hcmd, hexec, hfile]
  · intro env st d mid msg hen hmail hcache himg himg2
    simp [sendEmailToShubharthak, hen, hmail, hcache, strTruthy, himg, himg2]
  · intro env st mid msg hen hmail hcache
    simp [sendEmailToShubharthak, hen, hmail, hcache, strTruthy]

/-- C5 (witness): the amended theorem instantiated in `sampleEnv` — the
screenshot fills the cache, and a placeholder email on the filled cache
attaches the cached image, succeeds and clears the slot. -/
theorem screenshot_cache_flow_witness :
    (screenshotCommand sampleEnv.platform
        = some "gnome-screenshot -f temp_screenshot.png 2>/dev/null || scrot temp_screenshot.png" ∧
      sampleEnv.execShell
          "gnome-screenshot -f temp_screenshot.png 2>/dev/null || scrot temp_screenshot.png"
        = .ok "" ∧
      sampleEnv.fileExists tempScreenshotPath = true ∧
      ((takeScreenshot false sampleEnv initialToolsState).1.success = true ∧
        (takeScreenshot false sampleEnv initialToolsState).2.1.lastScreenshotData
          = some { image := sampleEnv.readFileB64 tempScreenshotPath,
                   filename := "screenshot_" ++ sampleEnv.nowIso ++ ".png",
                   mimeType := "image/png" })) ∧
    (initialToolsState.lastScreenshotData = none ∧
      sendEmailToShubharthak (some "hello") none none
          (some "use_last_screenshot") none none sampleEnv initialToolsState
        = ({ success := true, messageId := some "msg-id-1",
             sentTo := some "shubharthaksangharsha@gmail.com" },
           initialToolsState,
           { emailsSent := [("shubharthaksangharsha@gmail.com", none)] })) :=
  ⟨⟨rfl, rfl, rfl,
    screenshot_cache_flow.1 sampleEnv initialToolsState
      "gnome-screenshot -f temp_screenshot.png 2>/dev/null || scrot temp_screenshot.png"
      "" rfl rfl rfl⟩,
   ⟨rfl,
    screenshot_cache_flow.2.2 sampleEnv initialToolsState "msg-id-1"
      (some "hello") rfl rfl rfl⟩⟩


/-- A throwing filter over elements that all evaluate to `ok false` returns
the empty list. -/
lemma filterE_ok_nil {α : Type} (p : α → Except String Bool) :
    ∀ (l : List α), (∀ m ∈ l, p m = .ok false) → filterE p l = .ok []
  | [], _ => rfl
  | a :: as, h => by
    have ha : p a = .ok false := h a (List.mem_cons_self a as)
    have has : filterE p as = .ok [] :=
      filterE_ok_nil p as (fun m hm => h m (List.mem_cons_of_mem a hm))
    simp [filterE, ha, has]

/-- C6 (counterexample).  The claim says a query that is (case-insensitively)
a substring of no stored content and no stored category yields count 0.  The
blank query, a single space, is a substring of nothing stored here, yet
`retrieveMemories` treats it as empty (`query.trim() === ''`) and returns
every entry: count 2, not 0. -/
theorem retrieveMemories_blank_query_cex :
    jsTrim " " = "" ∧
    jsIncludes (jsToLower "abc") (jsToLower " ") = false ∧
    jsIncludes (jsToLower "a") (jsToLower " ") = false ∧
    jsIncludes (jsToLower "xyz") (jsToLower " ") = false ∧
    jsIncludes (jsToLower "b") (jsToLower " ") = false ∧
    memState.memoryStore.map Memory.content = [some "abc", some "xyz"] ∧
    memState.memoryStore.map Memory.category = ["a", "b"] ∧
    (retrieveMemories (some " ") memState).count = some 2 := by
  refine ⟨by decide, by decide, by decide, by decide, by decide, by decide,
    by decide, by decide⟩

/-- C6 (amended).  First conjunct: a stored entry is returned by a
no-query retrieval.  Second conjunct: a query that is non-blank after
trimming and (case-insensitively) a substring of no stored content or
category returns count 0 and no memories.  Third conjunct: clearing a
non-empty category removes exactly the entries whose category matches it
case-insensitively, keeping all others. -/
theorem memory_roundtrip :
    (∀ (env : Env) (st : ToolsState) (content category : String),
       ({ content := some content, category := category,
          date := env.nowLocale } : MemoryView)
         ∈ (retrieveMemories none
             (storeMemory (some content) (some category) env st).2).memories) ∧
    (∀ (st : ToolsState) (q : String), jsTrim q ≠ "" →
       (∀ m ∈ st.memoryStore, ∃ c, m.content = some c ∧
          jsIncludes (jsToLower c) (jsToLower q) = false ∧
          jsIncludes (jsToLower m.category) (jsToLower q) = false) →
       retrieveMemories (some q) st
         = { success := true, count := some 0, memories := [] }) ∧
    (∀ (st : ToolsState) (cat : String), cat ≠ "" → ∀ m : Memory,
       m ∈ (clearMemories (some cat) st).2.memoryStore ↔
         m ∈ st.memoryStore ∧ jsToLower m.category ≠ jsToLower cat) := by
  refine ⟨?_, ?_, ?_⟩
  · intro env st content category
    simp only [retrieveMemories, storeMemory]
    rw [if_pos (Or.inl trivial)]
    refine List.mem_map.mpr
      ⟨_, List.mem_append_right _ (List.mem_singleton_self _), ?_⟩
    simp [memoryView]
  · intro st q hq hall
    have hfe : filterE (memoryMatches (jsToLower q)) st.memoryStore
        = .ok [] := by
      refine filterE_ok_nil _ _ ?_
      intro m hm
      obtain ⟨c, hmc, h1, h2⟩ := hall m hm
      simp [memoryMatches, hmc, h1, h2]
    simp [retrieveMemories, hq, hfe]
  · intro st cat hcat m
    simp [clearMemories, strTruthy, hcat, List.mem_filter, bne_iff_ne]

/-- C6 (witness): storing then retrieving with no query returns the entry;
the unmatched query `zz` on the concrete two-entry store returns count 0;
clearing category `a` keeps exactly the category-`b` entry. -/
theorem memory_roundtrip_witness :
    (({ content := some "remember me", category := "notes",
        date := sampleEnv.nowLocale } : MemoryView)
       ∈ (retrieveMemories none
           (storeMemory (some "remember me") (some "notes") sampleEnv
             initialToolsState).2).memories) ∧
    (jsTrim "zz" ≠ "" ∧
      retrieveMemories (some "zz") memState
        = { success := true, count := some 0, memories := [] }) ∧
    ("a" ≠ "" ∧
      (memSampleB ∈ (clearMemories (some "a") memState).2.memoryStore ↔
        memSampleB ∈ memState.memoryStore ∧
          jsToLower memSampleB.category ≠ jsToLower "a") ∧
      (clearMemories (some "a") memState).2.memoryStore = [memSampleB]) :=
  ⟨memory_roundtrip.1 sampleEnv initialToolsState "remember me" "notes",
   ⟨by decide,
    memory_roundtrip.2.1 memState "zz" (by decide) (by
      intro m hm
      fin_cases hm
      · exact ⟨"abc", rfl, by decide, by decide⟩
      · exact ⟨"xyz", rfl, by decide, by decide⟩)⟩,
   ⟨by decide, memory_roundtrip.2.2 memState "a" (by decide) memSampleB,
    by decide⟩⟩

/-- C10.  First conjunct: with `confirm` false (the value an absent argument
defaults to) `deleteFile` returns the confirmation error and performs no
filesystem access at all — in particular no unlink.  Second conjunct: any
unlink attempt implies `confirm` was `true`, a path was supplied, and the
resolved path existed and was a regular file.  Third conjunct: through the
executor, `delete_file` with `confirm` anything but `true` yields a failed
result and no unlink. -/
theorem deleteFile_confirmation_gate :
    (∀ (fp : Option String) (env : Env),
       deleteFile fp false env
         = ({ success := false,
              error := some "Deletion requires confirmation. Set confirm=true to delete the file." },
            ({} : Effects))) ∧
    (∀ (fp : Option String) (c : Bool) (env : Env),
       (deleteFile fp c env).2.unlinked ≠ [] →
       c = true ∧ ∃ p, fp = some p ∧
         env.fileExists (resolveAbs env p) = true ∧
         env.isFile (resolveAbs env p) = true) ∧
    (∀ (a : Args) (env : Env) (st : ToolsState),
       a.confirm ≠ some true →
       lookupFlag st.enabledTools "delete_file" = true →
       (executeTool "delete_file" (some a) env st).1.success = false ∧
       (executeTool "delete_file" (some a) env st).2.2.unlinked = []) := by
  refine ⟨?_, ?_, ?_⟩
  · intro fp env
    simp [deleteFile]
  · intro fp c env h
    cases c with
    | false => simp [deleteFile] at h
    | true =>
      cases fp with
      | none => simp [deleteFile] at h
      | some p =>
        refine ⟨rfl, p, rfl, ?_, ?_⟩ <;>
          · simp only [deleteFile, Bool.not_true] at h
            by_cases h1 : env.fileExists (resolveAbs env p) <;>
              by_cases h2 : env.isFile (resolveAbs env p) <;>
              simp [h1, h2] at h <;> simp [h1, h2]
  · intro a env st hconf henabled
    have hfalse : a.confirm.getD false = false := by
      cases hc : a.confirm with
      | none => rfl
      | some b =>
        cases b with
        | false => rfl
        | true => exact absurd hc hconf
    have hdel : deleteFile a.filePath (a.confirm.getD false) env
        = ({ success := false,
             error := some "Deletion requires confirmation. Set confirm=true to delete the file." },
           ({} : Effects)) := by
      rw [hfalse]
      simp [deleteFile]
    have hdisp : dispatchTool "delete_file" (some a) env st
        = Except.ok ((deleteFile a.filePath (a.confirm.getD false) env).1, st,
            withInvoked "deleteFile"
              (deleteFile a.filePath (a.confirm.getD false) env).2) := rfl
    have hrun : executeTool "delete_file" (some a) env st
        = ({ success := false,
             error := some "Deletion requires confirmation. Set confirm=true to delete the file." },
           st, withInvoked "deleteFile" ({} : Effects)) := by
      rw [hdel] at hdisp
      simp [executeTool, henabled, hdisp]
    rw [hrun]
    exact ⟨rfl, rfl⟩

/-- C10 (witness): a concrete unconfirmed delete is refused with no unlink,
and a concrete confirmed delete of an existing file shows the unlink branch
satisfies the guard conditions. -/
theorem deleteFile_confirmation_gate_witness :
    (deleteFile (some "/tmp/x") false sampleEnv
       = ({ success := false,
            error := some "Deletion requires confirmation. Set confirm=true to delete the file." },
          ({} : Effects))) ∧
    ((deleteFile (some "/tmp/x") true sampleEnv).2.unlinked ≠ [] ∧
      (true = true ∧ ∃ p, (some "/tmp/x" : Option String) = some p ∧
        sampleEnv.fileExists (resolveAbs sampleEnv p) = true ∧
        sampleEnv.isFile (resolveAbs sampleEnv p) = true)) :=
  ⟨deleteFile_confirmation_gate.1 (some "/tmp/x") sampleEnv,
   ⟨by decide,
    deleteFile_confirmation_gate.2.1 (some "/tmp/x") true sampleEnv
      (by decide)⟩⟩

/-- C4.  While `currentModality` is `SWITCHING`, every audio, video, camera
or text frame through the message handler produces no upstream call at all
(the audio gate rejects anything but `AUDIO` mode; the other three reject
`SWITCHING` explicitly; and with no live handle nothing is forwarded
either). -/
theorem switching_drops_frames (st : ConnState) (msg : ClientMsg) (ok : Bool)
    (hmod : st.currentModality = "SWITCHING") (hframe : mediaFrame msg) :
    (handleClientMessage st msg ok).2.1 = [] := by
  cases msg with
  | setModality m => exact absurd hframe (by simp [mediaFrame])
  | interrupt => exact absurd hframe (by simp [mediaFrame])
  | audioFrame d =>
      cases hg : st.hasGemini <;> simp [handleClientMessage, hg, hmod]
  | videoFrame d mt =>
      cases hg : st.hasGemini <;> simp [handleClientMessage, hg, hmod]
  | cameraFrame d mt =>
      cases hg : st.hasGemini <;> simp [handleClientMessage, hg, hmod]
  | textFrame t =>
      cases hg : st.hasGemini <;> simp [handleClientMessage, hg, hmod]

/-- C4 (witness): an audio frame against a live handle in the `SWITCHING`
state is dropped. -/
theorem switching_drops_frames_witness :
    ({ currentModality := "SWITCHING", hasGemini := true } : ConnState).currentModality
      = "SWITCHING" ∧
    mediaFrame (ClientMsg.audioFrame "chunk") ∧
    (handleClientMessage { currentModality := "SWITCHING", hasGemini := true }
      (ClientMsg.audioFrame "chunk") true).2.1 = [] :=
  ⟨rfl, trivial,
   switching_drops_frames { currentModality := "SWITCHING", hasGemini := true }
     (ClientMsg.audioFrame "chunk") true rfl trivial⟩

/-- No frame other than `set_modality` ever assigns the per-connection state:
interrupt, audio, video, camera and text handlers return it untouched. -/
lemma handle_nonset_state (st : ConnState) (msg : ClientMsg) (ok : Bool)
    (h : ∀ m, msg ≠ ClientMsg.setModality m) :
    (handleClientMessage st msg ok).1 = st := by
  cases msg with
  | setModality m => exact absurd rfl (h m)
  | interrupt =>
      simp only [handleClientMessage]
      split <;> rfl
  | audioFrame d =>
      simp only [handleClientMessage]
      repeat' split
      all_goals rfl
  | videoFrame d mt =>
      simp only [handleClientMessage]
      repeat' split
      all_goals rfl
  | cameraFrame d mt =>
      simp only [handleClientMessage]
      repeat' split
      all_goals rfl
  | textFrame t =>
      simp only [handleClientMessage]
      repeat' split
      all_goals rfl

/-- Every modality value produced while running well-formed traffic from a
terminal state lies in the three-value set, and consecutive values only move
terminal-to-`SWITCHING` or `SWITCHING`-to-terminal. -/
lemma runStates_good : ∀ (evs : List (ClientMsg × Bool)) (st : ConnState),
    goodModality st.currentModality → wfEvents evs →
    (∀ x ∈ runStates st evs,
       x = "AUDIO" ∨ x = "TEXT" ∨ x = "SWITCHING") ∧
    List.Chain' allowedStep (st.currentModality :: runStates st evs)
  | [], st, hgood, _ => by simp [runStates]
  | (msg, ok) :: rest, st, hgood, hwf => by
    have hwfrest : wfEvents rest :=
      fun e he m hm => hwf e (List.mem_cons_of_mem _ he) m hm
    cases msg with
    | setModality m =>
      have hgoodm : goodModality m :=
        hwf (ClientMsg.setModality m, ok) (List.mem_cons_self _ _) m rfl
      by_cases hm : m = st.currentModality
      · have hstate : (handleClientMessage st (.setModality m) ok).1 = st := by
          simp [handleClientMessage, hm]
        have ih := runStates_good rest st hgood hwfrest
        have htrace : runStates st ((ClientMsg.setModality m, ok) :: rest)
            = runStates st rest := by
          show eventStates st (ClientMsg.setModality m) ok
              ++ runStates
                  (handleClientMessage st (ClientMsg.setModality m) ok).1 rest
            = runStates st rest
          rw [hstate]
          simp only [eventStates]
          rw [if_pos hm]
          simp
        rw [htrace]
        exact ih
      · have hmodal :
            (handleClientMessage st (.setModality m) ok).1.currentModality
              = (if ok then m else st.currentModality) := by
          cases ok <;> simp [handleClientMessage, hm]
        have hgoodfin : goodModality (if ok then m else st.currentModality) := by
          cases ok
          · simpa using hgood
          · simpa using hgoodm
        have ih := runStates_good rest
          (handleClientMessage st (.setModality m) ok).1
          (by rw [hmodal]; exact hgoodfin) hwfrest
        have htrace : runStates st ((ClientMsg.setModality m, ok) :: rest)
            = "SWITCHING" :: (if ok then m else st.currentModality)
              :: runStates (handleClientMessage st (.setModality m) ok).1
                  rest := by
          simp [runStates, eventStates, hm]
        rw [htrace]
        constructor
        · intro x hx
          rcases List.mem_cons.mp hx with h1 | hx
          · exact Or.inr (Or.inr h1)
          rcases List.mem_cons.mp hx with h2 | hx
          · rcases hgoodfin with hf | hf
            · exact Or.inl (h2.trans hf)
            · exact Or.inr (Or.inl (h2.trans hf))
          · exact ih.1 x hx
        · refine List.chain'_cons.mpr ⟨Or.inl ⟨hgood, rfl⟩, ?_⟩
          refine List.chain'_cons.mpr ⟨Or.inr ⟨rfl, hgoodfin⟩, ?_⟩
          have hch := ih.2
          rwa [hmodal] at hch
    | interrupt =>
        have hstate := handle_nonset_state st .interrupt ok
          (fun m hm => ClientMsg.noConfusion hm)
        have ih := runStates_good rest (handleClientMessage st .interrupt ok).1
          (by rw [hstate]; exact hgood) hwfrest
        simpa [runStates, eventStates, hstate] using ih
    | audioFrame d =>
        have hstate := handle_nonset_state st (.audioFrame d) ok
          (fun m hm => ClientMsg.noConfusion hm)
        have ih := runStates_good rest (handleClientMessage st (.audioFrame d) ok).1
          (by rw [hstate]; exact hgood) hwfrest
        simpa [runStates, eventStates, hstate] using ih
    | videoFrame d mt =>
        have hstate := handle_nonset_state st (.videoFrame d mt) ok
          (fun m hm => ClientMsg.noConfusion hm)
        have ih := runStates_good rest (handleClientMessage st (.videoFrame d mt) ok).1
          (by rw [hstate]; exact hgood) hwfrest
        simpa [runStates, eventStates, hstate] using ih
    | cameraFrame d mt =>
        have hstate := handle_nonset_state st (.cameraFrame d mt) ok
          (fun m hm => ClientMsg.noConfusion hm)
        have ih := runStates_good rest (handleClientMessage st (.cameraFrame d mt) ok).1
          (by rw [hstate]; exact hgood) hwfrest
        simpa [runStates, eventStates, hstate] using ih
    | textFrame t =>
        have hstate := handle_nonset_state st (.textFrame t) ok
          (fun m hm => ClientMsg.noConfusion hm)
        have ih := runStates_good rest (handleClientMessage st (.textFrame t) ok).1
          (by rw [hstate]; exact hgood) hwfrest
        simpa [runStates, eventStates, hstate] using ih

/-- C7 (counterexample).  The claim says the per-connection modality only
ever holds `AUDIO`, `TEXT` or `SWITCHING` and only transitions between them.
But the handler installs whatever string the client sends: a
`set_modality` frame carrying `VIDEO` drives the variable from `AUDIO`
through `SWITCHING` to the value `VIDEO`, outside the claimed set. -/
theorem modality_unvalidated_cex :
    modalityTrace true [(ClientMsg.setModality "VIDEO", true)]
      = ["AUDIO", "SWITCHING", "VIDEO"] ∧
    ¬("VIDEO" = "AUDIO" ∨ "VIDEO" = "TEXT" ∨ "VIDEO" = "SWITCHING") := by
  refine ⟨by decide, by decide⟩

/-- C7 (amended).  Restricted to well-formed client traffic (every
`set_modality` frame carries `AUDIO` or `TEXT`): the machine starts in
`AUDIO` at connect; every value the modality variable takes is `AUDIO`,
`TEXT` or `SWITCHING`; consecutive values only move terminal to `SWITCHING`
(entering a switch) or `SWITCHING` to terminal (the target on connect
success, the prior modality as best-effort fallback on failure); and no
frame other than `set_modality` ever changes the connection state. -/
theorem modality_machine_invariant :
    (∀ g : Bool, (initialConnState g).currentModality = "AUDIO") ∧
    (∀ (g : Bool) (evs : List (ClientMsg × Bool)), wfEvents evs →
       ∀ x ∈ modalityTrace g evs,
         x = "AUDIO" ∨ x = "TEXT" ∨ x = "SWITCHING") ∧
    (∀ (g : Bool) (evs : List (ClientMsg × Bool)), wfEvents evs →
       List.Chain' allowedStep (modalityTrace g evs)) ∧
    (∀ (st : ConnState) (msg : ClientMsg) (ok : Bool),
       (∀ m, msg ≠ ClientMsg.setModality m) →
       (handleClientMessage st msg ok).1 = st) := by
  refine ⟨fun g => rfl, ?_, ?_, ?_⟩
  · intro g evs hwf x hx
    rcases List.mem_cons.mp hx with h1 | hx
    · exact Or.inl h1
    · exact (runStates_good evs (initialConnState g) (Or.inl rfl) hwf).1 x hx
  · intro g evs hwf
    exact (runStates_good evs (initialConnState g) (Or.inl rfl) hwf).2
  · intro st msg ok h
    exact handle_nonset_state st msg ok h

/-- C7 (witness): a well-formed switch to `TEXT` keeps the trace inside the
three-value set. -/
theorem modality_machine_invariant_witness :
    wfEvents [(ClientMsg.setModality "TEXT", true)] ∧
    (∀ x ∈ modalityTrace true [(ClientMsg.setModality "TEXT", true)],
       x = "AUDIO" ∨ x = "TEXT" ∨ x = "SWITCHING") := by
  have hwf : wfEvents [(ClientMsg.setModality "TEXT", true)] := by
    intro e he m hm
    rw [List.mem_singleton] at he
    subst he
    injection hm with h
    exact Or.inr h.symm
  exact ⟨hwf, modality_machine_invariant.2.1 true _ hwf⟩
